import Mathlib

/-!
# Verification of `simple-jsonrpc` (src/index.ts)

A shallow embedding of the JSON-RPC client in `src/index.ts`:
the envelope codec (`extractParams`, request body assembly), the error
model (`RPCError`, `HttpError` construction), the request pipeline
(`createFetch(...).request`) and the mock transport (`createMockFetch`).

Modelling conventions:
* JavaScript runtime values are the inductive `JSValue`; `typeof` and
  `Array.isArray` are embedded as functions on it, including the quirk
  that `typeof null === "object"`.
* `JSON.stringify` of the outbound envelope followed by `JSON.parse`
  inside the mock transport is modelled as the identity on the structured
  envelope, so a `RequestInit` body carries the parsed `RPCRequest`
  directly (`Option` models an absent body key).
* Fallible JavaScript computations (a hook or the transport throwing,
  `response.json()` failing to parse) are modelled with `Except Thrown`.
* A call settles as `CallOutcome`: `resolved`, `rejected`, or
  `syncThrow` for an exception escaping `request` before the promise is
  created (the `beforeFetch` call sits outside the promise executor).
* The pipeline also records the `HookEvent` trace (before-send stage,
  transport invocation, on-response stage, on-error stage) in the order
  the stages run, to settle the temporal claims.
-/

set_option autoImplicit false

namespace SimpleJsonRpc

/-- A JavaScript runtime value, as far as this client manipulates them. -/
inductive JSValue where
  | undefined
  | null
  | bool (b : Bool)
  | num (n : Int)
  | str (s : String)
  | arr (elems : List JSValue)
  | obj (fields : List (String × JSValue))

/-- JavaScript `typeof v`, restricted to the values of `JSValue`.
Note `typeof null` and `typeof` of an array are both `"object"`. -/
def typeofString : JSValue → String
  | .undefined => "undefined"
  | .null => "object"
  | .bool _ => "boolean"
  | .num _ => "number"
  | .str _ => "string"
  | .arr _ => "object"
  | .obj _ => "object"

/-- JavaScript `Array.isArray v`. -/
def isArray : JSValue → Bool
  | .arr _ => true
  | _ => false

/-- The singleton-unwrap test of `extractParams`:
`typeof params[0] === 'object' && !Array.isArray(params[0])`. -/
def isNonArrayObject (v : JSValue) : Bool :=
  typeofString v == "object" && !isArray v

/-- `extractParams` from `createFetch`: `none` models returning
`undefined` (the `params` key is then omitted from the envelope). -/
def extractParams : List JSValue → Option JSValue
  | [] => none
  | [p] => if isNonArrayObject p then some p else some (.arr [p])
  | p :: q :: rest => some (.arr (p :: q :: rest))

/-- A JSON-RPC request id: `string | number | null`. -/
inductive RPCId where
  | str (s : String)
  | num (n : Int)
  | null
deriving DecidableEq

/-- JavaScript truthiness of an id value (`if (rpcRequest.id)`):
`0`, the empty string and `null` are falsy. -/
def truthyId : RPCId → Bool
  | .str s => !(s == "")
  | .num n => !(n == 0)
  | .null => false

/-! ## Error model -/

/-- ASCII-uppercase test, JavaScript regex class `[A-Z]`. -/
def isAsciiUpper (c : Char) : Bool :=
  'A' ≤ c && c ≤ 'Z'

/-- `s.replace(/([A-Z])/g, ' $1')` on the character list: a space is
inserted before every ASCII uppercase character. -/
def insertSpaceBeforeUpper : List Char → List Char
  | [] => []
  | c :: cs =>
    if isAsciiUpper c then ' ' :: c :: insertSpaceBeforeUpper cs
    else c :: insertSpaceBeforeUpper cs

/-- ASCII `toLowerCase` on one character. -/
def toLowerAscii (c : Char) : Char :=
  if isAsciiUpper c then Char.ofNat (c.toNat + 32) else c

/-- JavaScript whitespace trimmed by `String.prototype.trim`, restricted
to the characters that can occur here. -/
def isJsWhitespace (c : Char) : Bool :=
  c == ' ' || c == '\t' || c == '\n' || c == '\r'

/-- `s.trim()` on the character list. -/
def trimChars (cs : List Char) : List Char :=
  ((cs.dropWhile isJsWhitespace).reverse.dropWhile isJsWhitespace).reverse

/-- `RPCErrorCode[code].replace(/([A-Z])/g, ' $1').trim().toLowerCase()`. -/
def humanizeCodeName (s : String) : String :=
  String.mk ((trimChars (insertSpaceBeforeUpper s.data)).map toLowerAscii)

/-- Reverse lookup `RPCErrorCode[code]` of the `enum RPCErrorCode`.
Outside the five members the lookup yields `undefined` in JavaScript;
this total model returns `""` there, but that branch is reached only
for the five reserved codes. -/
def rpcErrorCodeName (code : Int) : String :=
  if code = -32700 then "ParseError"
  else if code = -32600 then "InvalidRequest"
  else if code = -32601 then "MethodNotFound"
  else if code = -32602 then "InvalidParams"
  else if code = -32603 then "InternalError"
  else ""

/-- JavaScript falsiness of the optional `message` argument
(`!message`): absent (`undefined`) or the empty string. -/
def msgFalsy : Option String → Bool
  | none => true
  | some s => s == ""

/-- A constructed `RPCError` object (class `RPCError`). -/
structure RPCError where
  name : String
  code : Int
  message : String
  data : JSValue

/-- The `RPCError` constructor. `message : Option String` models the
optional parameter (`none` = not passed); `data` is `JSValue.undefined`
when not passed. -/
def mkRPCError (code : Int) (message : Option String) (data : JSValue) : RPCError :=
  { name := "RPCError"
    code := code
    message :=
      if ((code ≤ -32600 ∧ -32603 ≤ code) ∨ code = -32700) ∧ msgFalsy message
      then humanizeCodeName (rpcErrorCodeName code)
      else message.getD "Unknown error"
    data := data }

/-- A constructed `HttpError` object (class `HttpError`). -/
structure HttpError where
  name : String
  status : Nat
  statusText : String
  message : String

/-- The `HttpError` constructor: `message` is `` `${status} ${statusText}` ``. -/
def mkHttpError (status : Nat) (statusText : String) : HttpError :=
  { name := "HttpError"
    status := status
    statusText := statusText
    message := toString status ++ " " ++ statusText }

/-! ## Wire envelopes and transport interface -/

/-- The outbound JSON-RPC envelope (`RPCRequest`): `params = none` models
an omitted `params` key, as produced by `extractParams` on zero
arguments. -/
structure RPCRequest where
  jsonrpc : String
  method : String
  params : Option JSValue
  id : RPCId

/-- The parsed `error` member of an inbound response body, as the client
reads it (`error.code`, `error.message`, `error.data`): `message = none`
models an absent message, `data = JSValue.undefined` an absent payload. -/
structure RPCErrorData where
  code : Int
  message : Option String
  data : JSValue

/-- The parsed inbound JSON-RPC envelope (`RPCResponse`).
`error = none` models an absent (or `null`, hence falsy) `error` member;
a present error object is always truthy in `if (rpcResponse.error)`. -/
structure RPCResponse where
  jsonrpc : String
  result : Option JSValue
  error : Option RPCErrorData
  id : RPCId

/-- A value thrown or rejected with, in this client: an `HttpError`, an
`RPCError`, or any other JavaScript value (parse failures, hook throws). -/
inductive Thrown where
  | http (e : HttpError)
  | rpc (e : RPCError)
  | other (v : JSValue)

/-- The slice of `RequestInit` this client touches. `none` models an
absent key, so object spread keeps the other operand's entry. -/
structure RequestInit where
  method : Option String := none
  headers : Option (List (String × String)) := none
  body : Option RPCRequest := none

/-- `defaultRequestInit` of `createFetch`. -/
def defaultRequestInit : RequestInit :=
  { method := some "POST"
    headers := some [("Content-Type", "application/json")]
    body := none }

/-- `generateRequestInit`: the spread `{...defaultRequestInit,
...userRequestInit}` — a key present in the user options overrides the
default wholesale. -/
def generateRequestInit (user : RequestInit) : RequestInit :=
  { method := match user.method with | some m => some m | none => defaultRequestInit.method
    headers := match user.headers with | some h => some h | none => defaultRequestInit.headers
    body := match user.body with | some b => some b | none => defaultRequestInit.body }

/-- The `RequestContext` handed to the before-send hook. -/
structure RequestContext where
  url : String
  request : RequestInit

/-- The HTTP-response-like object a transport resolves with: `jsonBody`
models the outcome of `response.json()` (which may throw). -/
structure HttpResponse where
  ok : Bool
  status : Nat
  statusText : String
  jsonBody : Except Thrown RPCResponse

/-- The `ResponseContext` handed to the on-response hook. -/
structure ResponseContext where
  rpcResponse : RPCResponse
  response : HttpResponse
  data : Option JSValue

/-- A transport: `fetch_(url, request)`, which may throw. -/
def Transport : Type :=
  String → RequestInit → Except Thrown HttpResponse

/-- The `RPCFetchOptions` configuration. Hooks default to identity
(`?? ((a) => a)` in the source); a hook that can throw is an
`Except Thrown`-valued function. `idGenerator = some v` models a
configured generator returning `v`; `none` models absent or `false`. -/
structure RPCFetchOptions where
  url : String
  beforeFetch : RequestContext → Except Thrown RequestContext := fun c => Except.ok c
  onResponse : ResponseContext → Except Thrown ResponseContext := fun c => Except.ok c
  onError : Thrown → Thrown := id
  idGenerator : Option RPCId := none
  fetchOptions : RequestInit := {}

/-! ## Request pipeline -/

/-- How one call settles: resolution, rejection, or a synchronous throw
escaping `request` itself (possible only from the before-send hook,
which runs outside the promise executor). -/
inductive CallOutcome where
  | resolved (ctx : ResponseContext)
  | rejected (e : Thrown)
  | syncThrow (e : Thrown)

/-- The observable stages of one call, for the temporal claims. -/
inductive HookEvent where
  | beforeSend
  | transportCall
  | onResponse
  | onError
deriving DecidableEq

/-- A settled call together with the trace of stages that ran. -/
structure CallResult where
  outcome : CallOutcome
  events : List HookEvent

/-- The envelope `request` builds: id from the generator (else `null`),
`params` via `extractParams`. -/
def mkRequestBody (opts : RPCFetchOptions) (method : String)
    (args : List JSValue) : RPCRequest :=
  { jsonrpc := "2.0"
    method := method
    params := extractParams args
    id := match opts.idGenerator with | some v => v | none => RPCId.null }

/-- The `RequestContext` passed to the before-send hook: the configured
url and the merged request options with the serialized envelope as body. -/
def initialContext (opts : RPCFetchOptions) (method : String)
    (args : List JSValue) : RequestContext :=
  { url := opts.url
    request := { generateRequestInit opts.fetchOptions with
                   body := some (mkRequestBody opts method args) } }

/-- One call of `createFetch(options, fetch_).request(method, ...args)`,
with its stage trace. Mirrors the source line by line: before-send runs
outside the try; a non-ok transport outcome rejects directly with an
`HttpError` (no hook); a populated `error` member throws an `RPCError`
into the catch; the catch rejects with the on-error hook's return value. -/
def requestRun (opts : RPCFetchOptions) (fetch_ : Transport) (method : String)
    (args : List JSValue) : CallResult :=
  match opts.beforeFetch (initialContext opts method args) with
  | .error e =>
    { outcome := .syncThrow e, events := [.beforeSend] }
  | .ok ctx =>
    match fetch_ ctx.url ctx.request with
    | .error e =>
      { outcome := .rejected (opts.onError e)
        events := [.beforeSend, .transportCall, .onError] }
    | .ok response =>
      if response.ok = false then
        { outcome := .rejected (.http (mkHttpError response.status response.statusText))
          events := [.beforeSend, .transportCall] }
      else
        match response.jsonBody with
        | .error e =>
          { outcome := .rejected (opts.onError e)
            events := [.beforeSend, .transportCall, .onError] }
        | .ok rpcResponse =>
          match rpcResponse.error with
          | some errData =>
            { outcome := .rejected (opts.onError
                (.rpc (mkRPCError errData.code errData.message errData.data)))
              events := [.beforeSend, .transportCall, .onError] }
          | none =>
            match opts.onResponse
                { rpcResponse := rpcResponse
                  response := response
                  data := rpcResponse.result } with
            | .error e =>
              { outcome := .rejected (opts.onError e)
                events := [.beforeSend, .transportCall, .onResponse, .onError] }
            | .ok ctx' =>
              { outcome := .resolved ctx'
                events := [.beforeSend, .transportCall, .onResponse] }

/-- The result carried by a resolved call, `none` otherwise. -/
def CallOutcome.resolvedData : CallOutcome → Option JSValue
  | .resolved ctx => ctx.data
  | _ => none

/-! ## Mock transport -/

/-- What a mock handler returns: `RPCResponse | HttpError`
(the `instanceof HttpError` test becomes a constructor match). -/
inductive MockResult where
  | rpc (r : RPCResponse)
  | http (e : HttpError)

/-- `MockRPCAction`: a handler `(rpcRequest, request) => RPCResponse | HttpError`. -/
def MockRPCAction : Type :=
  RPCRequest → RequestInit → MockResult

/-- `actions[rpcRequest.method]` on the `Record<string, MockRPCAction>`,
modelled as first-match lookup in an association list. -/
def lookupAction : List (String × MockRPCAction) → String → Option MockRPCAction
  | [], _ => none
  | (k, a) :: rest, m => if k == m then some a else lookupAction rest m

/-- `createMockRPCResponse(result)`. -/
def createMockRPCResponse (result : JSValue) : RPCResponse :=
  { jsonrpc := "2.0"
    result := some result
    error := none
    id := RPCId.null }

/-- `JSON.stringify` of a constructed `RPCError` followed by the
client's field reads `error.code` / `error.message` / `error.data`. -/
def rpcErrorToData (e : RPCError) : RPCErrorData :=
  { code := e.code
    message := some e.message
    data := e.data }

/-- `createMockRPCErrorResponse(code, message?, data?)`. -/
def createMockRPCErrorResponse (code : Int) (message : Option String)
    (data : JSValue) : RPCResponse :=
  { jsonrpc := "2.0"
    result := none
    error := some (rpcErrorToData (mkRPCError code message data))
    id := RPCId.null }

/-- `createMockFetch(actions)` (the artificial delay is a pure timer
suspension with no observable effect and is not modelled). Per
invocation: parse the request body back into an `RPCRequest`
(`JSON.parse` of an absent body throws); with no registered handler
return a bare `new Response(json)` — status `200`, empty status text —
whose body is a method-not-found error response carrying the request's
`id`; a handler returning an `HttpError` yields a response with that
status/statusText whose body is the error's plain message text (not
JSON, so `json()` on it is a parse failure); otherwise stamp the
request's `id` onto the handler's response when that `id` is truthy and
return it with status `200 OK`. -/
def mockFetch (actions : List (String × MockRPCAction)) : Transport :=
  fun _url req =>
    match req.body with
    | none => Except.error (.other (.str "SyntaxError: Unexpected token"))
    | some rpcRequest =>
      match lookupAction actions rpcRequest.method with
      | none =>
        Except.ok
          { ok := true
            status := 200
            statusText := ""
            jsonBody := Except.ok
              { jsonrpc := "2.0"
                result := none
                error := some (rpcErrorToData (mkRPCError (-32601) none .undefined))
                id := rpcRequest.id } }
      | some action =>
        match action rpcRequest req with
        | .http e =>
          Except.ok
            { ok := decide (200 ≤ e.status ∧ e.status ≤ 299)
              status := e.status
              statusText := e.statusText
              jsonBody := Except.error (.other (.str e.message)) }
        | .rpc resp =>
          Except.ok
            { ok := true
              status := 200
              statusText := "OK"
              jsonBody := Except.ok
                (if truthyId rpcRequest.id then { resp with id := rpcRequest.id }
                 else resp) }

/-! ## Concrete scenario configurations used by the theorems -/

/-- A client with every option left at its default. -/
def plainOptions : RPCFetchOptions :=
  { url := "http://localhost/" }

/-- A transport that resolves with a non-ok HTTP outcome
(`500 Internal Server Error`); its body is never valid JSON-RPC. -/
def httpFailTransport : Transport := fun _ _ =>
  Except.ok
    { ok := false
      status := 500
      statusText := "Internal Server Error"
      jsonBody := Except.error (.other (.str "<html>oops</html>")) }

/-- A transport that resolves ok with a body carrying a populated
`error` member. -/
def errorBodyTransport : Transport := fun _ _ =>
  Except.ok
    { ok := true
      status := 200
      statusText := "OK"
      jsonBody := Except.ok
        { jsonrpc := "2.0"
          result := none
          error := some { code := -32000, message := some "Server error", data := JSValue.null }
          id := RPCId.null } }

/-- A transport that resolves ok with an empty-object success body. -/
def okTransport : Transport := fun _ _ =>
  Except.ok
    { ok := true
      status := 200
      statusText := "OK"
      jsonBody := Except.ok
        { jsonrpc := "2.0"
          result := some (JSValue.obj [])
          error := none
          id := RPCId.null } }

/-- A client whose before-send hook throws `"boom"` and whose on-error
hook would tag anything passed through it. -/
def throwingBeforeFetchOptions : RPCFetchOptions :=
  { url := "http://localhost/"
    beforeFetch := fun _ => Except.error (.other (.str "boom"))
    onError := fun _ => .other (.str "tagged") }

/-- The `{x: 1}` payload of the round-trip scenario. -/
def echoObject : JSValue :=
  JSValue.obj [("x", JSValue.num 1)]

/-- The round-trip handler: returns `createMockRPCResponse({x:1})`. -/
def echoAction : MockRPCAction := fun _ _ =>
  MockResult.rpc (createMockRPCResponse echoObject)

/-- A handler that ignores its input and answers with result `5`. -/
def constantFiveAction : MockRPCAction := fun _ _ =>
  MockResult.rpc (createMockRPCResponse (JSValue.num 5))

/-! ## C1: `extractParams` trichotomy -/

/-- C1: for every ordered argument list, the encoded params value is
absent when the list is empty; the single argument unwrapped when the
list is a singleton whose element is a non-array structured
(`typeof === "object"`) value; and the full ordered list unchanged in
every other case — a singleton whose element is an array or a
non-object, or a list of length at least two. -/
theorem extractParams_trichotomy (args : List JSValue) :
    (args = [] → extractParams args = none)
    ∧ (∀ v, args = [v] → isNonArrayObject v = true → extractParams args = some v)
    ∧ (∀ v, args = [v] → isNonArrayObject v = false →
        extractParams args = some (JSValue.arr args))
    ∧ (2 ≤ args.length → extractParams args = some (JSValue.arr args)) := by
  refine ⟨?_, ?_, ?_, ?_⟩
  · rintro rfl
    rfl
  · rintro v rfl h
    simp [extractParams, h]
  · rintro v rfl h
    simp [extractParams, h]
  · intro h
    match args with
    | [] => simp at h
    | [v] => simp at h
    | p :: q :: rest => rfl

/-- C1 witness: one concrete instance of each branch of the trichotomy. -/
theorem extractParams_trichotomy_witness :
    extractParams [] = none
    ∧ extractParams [JSValue.obj [("x", JSValue.num 1)]]
        = some (JSValue.obj [("x", JSValue.num 1)])
    ∧ extractParams [JSValue.arr [JSValue.num 1]]
        = some (JSValue.arr [JSValue.arr [JSValue.num 1]])
    ∧ extractParams [JSValue.num 1, JSValue.num 2]
        = some (JSValue.arr [JSValue.num 1, JSValue.num 2]) :=
  ⟨(extractParams_trichotomy []).1 rfl,
   (extractParams_trichotomy _).2.1 _ rfl rfl,
   (extractParams_trichotomy _).2.2.1 _ rfl rfl,
   (extractParams_trichotomy _).2.2.2 (by simp)⟩

/-! ## C5: `RPCError` default messages -/

/-- C5: constructed without an explicit message, each of the five
reserved codes yields the humanized lower-case form of its symbolic
enum name, and every other code yields the generic placeholder
`"Unknown error"`. -/
theorem rpcError_default_messages (code : Int) (data : JSValue) :
    (mkRPCError (-32700) none data).message = "parse error"
    ∧ (mkRPCError (-32600) none data).message = "invalid request"
    ∧ (mkRPCError (-32601) none data).message = "method not found"
    ∧ (mkRPCError (-32602) none data).message = "invalid params"
    ∧ (mkRPCError (-32603) none data).message = "internal error"
    ∧ (code ≠ -32700 → code ≠ -32600 → code ≠ -32601 → code ≠ -32602 →
        code ≠ -32603 → (mkRPCError code none data).message = "Unknown error") := by
  refine ⟨rfl, rfl, rfl, rfl, rfl, ?_⟩
  intro h1 h2 h3 h4 h5
  have hc : ¬((code ≤ -32600 ∧ -32603 ≤ code) ∨ code = -32700) := by omega
  simp [mkRPCError, hc]

/-- C5 witness: an unreserved code with no message gets the placeholder. -/
theorem rpcError_default_messages_witness :
    (mkRPCError 42 none JSValue.undefined).message = "Unknown error" :=
  (rpcError_default_messages 42 JSValue.undefined).2.2.2.2.2
    (by decide) (by decide) (by decide) (by decide) (by decide)

/-! ## C10: a single `null` argument is unwrapped -/

/-- C10: `typeof null === "object"` and `null` is not an array, so the
singleton-unwrap test accepts it: a call with exactly one argument
`null` encodes `params` as `null` itself (the key is present), not as a
one-element list containing `null`. -/
theorem null_singleton_unwrapped :
    isNonArrayObject JSValue.null = true
    ∧ extractParams [JSValue.null] = some JSValue.null
    ∧ (mkRequestBody plainOptions "m" [JSValue.null]).params = some JSValue.null :=
  ⟨rfl, rfl, rfl⟩

/-! ## C2: non-ok transport outcomes reject with `HttpError` -/

/-- C2: whenever the before-send stage succeeds and the transport
resolves with an outcome whose `ok` is false, the call rejects with an
`HttpError` carrying that outcome's status and statusText — directly,
with neither after-hook stage running — and the rejection is the same
whatever `jsonBody` holds, i.e. the body is never parsed in this path. -/
theorem request_httpError_on_not_ok (opts : RPCFetchOptions) (fetch_ : Transport)
    (method : String) (args : List JSValue) (ctx : RequestContext)
    (resp : HttpResponse)
    (hbf : opts.beforeFetch (initialContext opts method args) = Except.ok ctx)
    (ht : fetch_ ctx.url ctx.request = Except.ok resp)
    (hok : resp.ok = false) :
    (requestRun opts fetch_ method args).outcome
      = CallOutcome.rejected (Thrown.http (mkHttpError resp.status resp.statusText))
    ∧ (requestRun opts fetch_ method args).events
      = [HookEvent.beforeSend, HookEvent.transportCall] := by
  constructor <;> simp [requestRun, hbf, ht, hok]

/-- C2 witness: a default client over a transport answering
`500 Internal Server Error` with a non-JSON body. -/
theorem request_httpError_on_not_ok_witness :
    (requestRun plainOptions httpFailTransport "m" []).outcome
      = CallOutcome.rejected (Thrown.http (mkHttpError 500 "Internal Server Error"))
    ∧ (requestRun plainOptions httpFailTransport "m" []).events
      = [HookEvent.beforeSend, HookEvent.transportCall] :=
  request_httpError_on_not_ok plainOptions httpFailTransport "m" []
    (initialContext plainOptions "m" []) _ rfl rfl rfl

/-! ## C3: a populated `error` member rejects through the on-error hook -/

/-- C3: whenever the before-send stage succeeds, the transport
resolves ok, and the body parses to a response whose `error` member is
populated, the call rejects with the on-error hook's image of an
`RPCError` constructed from that member's code, message and data; the
trace shows the failure routed through the on-error stage and the
on-response stage never running. -/
theorem request_rpcError_on_error_field (opts : RPCFetchOptions) (fetch_ : Transport)
    (method : String) (args : List JSValue) (ctx : RequestContext)
    (resp : HttpResponse) (rpcResp : RPCResponse) (errData : RPCErrorData)
    (hbf : opts.beforeFetch (initialContext opts method args) = Except.ok ctx)
    (ht : fetch_ ctx.url ctx.request = Except.ok resp)
    (hok : resp.ok = true)
    (hj : resp.jsonBody = Except.ok rpcResp)
    (he : rpcResp.error = some errData) :
    (requestRun opts fetch_ method args).outcome
      = CallOutcome.rejected (opts.onError
          (Thrown.rpc (mkRPCError errData.code errData.message errData.data)))
    ∧ (requestRun opts fetch_ method args).events
      = [HookEvent.beforeSend, HookEvent.transportCall, HookEvent.onError] := by
  constructor <;> simp [requestRun, hbf, ht, hok, hj, he]

/-- C3 witness: a default client over a transport answering `200 OK`
with a body carrying `error = {code := -32000, message := "Server error"}`. -/
theorem request_rpcError_on_error_field_witness :
    (requestRun plainOptions errorBodyTransport "m" []).outcome
      = CallOutcome.rejected
          (Thrown.rpc (mkRPCError (-32000) (some "Server error") JSValue.null))
    ∧ (requestRun plainOptions errorBodyTransport "m" []).events
      = [HookEvent.beforeSend, HookEvent.transportCall, HookEvent.onError] :=
  request_rpcError_on_error_field plainOptions errorBodyTransport "m" []
    (initialContext plainOptions "m" []) _ _ _ rfl rfl rfl rfl rfl

/-! ## C4: hook stage traces -/

/-- C4 counterexample: with a transport that returns a non-ok outcome
the transport stage runs, yet afterward neither the on-response nor the
on-error stage runs — refuting "after the transport returns, exactly
one of the on-response hook and the on-error hook runs". -/
theorem hook_stage_neither_after_not_ok :
    (requestRun plainOptions httpFailTransport "m" []).events
      = [HookEvent.beforeSend, HookEvent.transportCall]
    ∧ HookEvent.onResponse ∉ (requestRun plainOptions httpFailTransport "m" []).events
    ∧ HookEvent.onError ∉ (requestRun plainOptions httpFailTransport "m" []).events :=
  ⟨rfl, by decide, by decide⟩

/-- C4 amended: every call's stage trace is one of five shapes, so
before-send always runs first and exactly once, the transport is
invoked at most once and only after before-send, and each after-hook
stage runs at most once — but after the transport returns, at most one
of on-response/on-error runs (a non-ok outcome runs neither), except
that a throwing on-response stage is followed by the on-error stage. -/
theorem hook_stage_trace_shapes (opts : RPCFetchOptions) (fetch_ : Transport)
    (method : String) (args : List JSValue) :
    (requestRun opts fetch_ method args).events = [HookEvent.beforeSend]
    ∨ (requestRun opts fetch_ method args).events
        = [HookEvent.beforeSend, HookEvent.transportCall]
    ∨ (requestRun opts fetch_ method args).events
        = [HookEvent.beforeSend, HookEvent.transportCall, HookEvent.onError]
    ∨ (requestRun opts fetch_ method args).events
        = [HookEvent.beforeSend, HookEvent.transportCall, HookEvent.onResponse]
    ∨ (requestRun opts fetch_ method args).events
        = [HookEvent.beforeSend, HookEvent.transportCall, HookEvent.onResponse,
           HookEvent.onError] := by
  rcases hbf : opts.beforeFetch (initialContext opts method args) with e | ctx
  · simp [requestRun, hbf]
  rcases ht : fetch_ ctx.url ctx.request with e | resp
  · simp [requestRun, hbf, ht]
  rcases hok : resp.ok with _ | _
  · simp [requestRun, hbf, ht, hok]
  rcases hj : resp.jsonBody with e | rpcResp
  · simp [requestRun, hbf, ht, hok, hj]
  rcases he : rpcResp.error with _ | errData
  case ok.ok.true.ok.some => simp [requestRun, hbf, ht, hok, hj, he]
  rcases hr : opts.onResponse
      { rpcResponse := rpcResp, response := resp, data := rpcResp.result } with e | ctx'
  · simp [requestRun, hbf, ht, hok, hj, he, hr]
  · simp [requestRun, hbf, ht, hok, hj, he, hr]

/-! ## C9: routing of thrown values -/

/-- A throw of `e` inside the promise executor's `try` block: the
transport invocation throws, or the body fails to parse on an ok
outcome, or the on-response hook throws on the success path. -/
def ThrowsInPipeline (opts : RPCFetchOptions) (fetch_ : Transport)
    (ctx : RequestContext) (e : Thrown) : Prop :=
  fetch_ ctx.url ctx.request = Except.error e
  ∨ (∃ resp, fetch_ ctx.url ctx.request = Except.ok resp ∧ resp.ok = true
       ∧ resp.jsonBody = Except.error e)
  ∨ (∃ resp rpcResp, fetch_ ctx.url ctx.request = Except.ok resp ∧ resp.ok = true
       ∧ resp.jsonBody = Except.ok rpcResp ∧ rpcResp.error = none
       ∧ opts.onResponse
           { rpcResponse := rpcResp, response := resp, data := rpcResp.result }
           = Except.error e)

/-- C9 counterexample: a client whose before-send hook throws `"boom"`
while its on-error hook would replace anything passed through it by
`"tagged"`. The call does not reject at all — the throw escapes
`request` synchronously, untagged — and the on-error stage never runs,
refuting the claim for the before-send hook. -/
theorem beforeFetch_throw_escapes_synchronously :
    (requestRun throwingBeforeFetchOptions okTransport "m" []).outcome
      = CallOutcome.syncThrow (Thrown.other (JSValue.str "boom"))
    ∧ HookEvent.onError ∉ (requestRun throwingBeforeFetchOptions okTransport "m" []).events :=
  ⟨rfl, by decide⟩

/-- C9 amended: a value thrown by the transport invocation, by a body
parse failure, or by the on-response hook is passed through the
on-error hook and the call rejects with the hook's return value; a
value thrown by the before-send hook instead escapes `request`
synchronously, with the on-error stage never running. -/
theorem thrown_value_routing (opts : RPCFetchOptions) (fetch_ : Transport)
    (method : String) (args : List JSValue) (e : Thrown) :
    (opts.beforeFetch (initialContext opts method args) = Except.error e →
       (requestRun opts fetch_ method args).outcome = CallOutcome.syncThrow e
       ∧ (requestRun opts fetch_ method args).events = [HookEvent.beforeSend])
    ∧ (∀ ctx, opts.beforeFetch (initialContext opts method args) = Except.ok ctx →
        ThrowsInPipeline opts fetch_ ctx e →
        (requestRun opts fetch_ method args).outcome
          = CallOutcome.rejected (opts.onError e)
        ∧ HookEvent.onError ∈ (requestRun opts fetch_ method args).events) := by
  constructor
  · intro hbf
    constructor <;> simp [requestRun, hbf]
  · intro ctx hbf hthrow
    rcases hthrow with ht | ⟨resp, ht, hok, hj⟩ | ⟨resp, rpcResp, ht, hok, hj, he, hr⟩
    · constructor <;> simp [requestRun, hbf, ht]
    · constructor <;> simp [requestRun, hbf, ht, hok, hj]
    · constructor <;> simp [requestRun, hbf, ht, hok, hj, he, hr]

/-- C9 witness: the amended routing at concrete inputs — a before-send
throw escapes synchronously, and a throwing transport invocation is
passed through the on-error hook and rejects the call. -/
theorem thrown_value_routing_witness :
    ((requestRun throwingBeforeFetchOptions okTransport "nop" []).outcome
       = CallOutcome.syncThrow (Thrown.other (JSValue.str "boom"))
     ∧ (requestRun throwingBeforeFetchOptions okTransport "nop" []).events
       = [HookEvent.beforeSend])
    ∧ ((requestRun plainOptions
          (fun _ _ => Except.error (Thrown.other (JSValue.str "ECONNREFUSED")))
          "nop" []).outcome
        = CallOutcome.rejected (Thrown.other (JSValue.str "ECONNREFUSED"))
      ∧ HookEvent.onError
          ∈ (requestRun plainOptions
              (fun _ _ => Except.error (Thrown.other (JSValue.str "ECONNREFUSED")))
              "nop" []).events) :=
  ⟨(thrown_value_routing throwingBeforeFetchOptions okTransport "nop" []
      (Thrown.other (JSValue.str "boom"))).1 rfl,
   (thrown_value_routing plainOptions
      (fun _ _ => Except.error (Thrown.other (JSValue.str "ECONNREFUSED")))
      "nop" [] (Thrown.other (JSValue.str "ECONNREFUSED"))).2
     (initialContext plainOptions "nop" []) rfl (Or.inl rfl)⟩

/-! ## C6: unregistered methods through the mock -/

/-- C6: a mock-transport invocation whose decoded request names a
method with no registered handler resolves the HTTP layer with status
`200` (`ok = true`) and a body that is a JSON-RPC error response of
code `-32601` carrying the request's `id`; composed with a client whose
before-send and on-error hooks are the defaults, the call rejects with
an `RPCError` of code `-32601` — a protocol failure, never an
`HttpError` transport failure. -/
theorem mock_unregistered_method (actions : List (String × MockRPCAction))
    (u : String) (req : RequestInit) (rpcReq : RPCRequest)
    (opts : RPCFetchOptions) (method : String) (args : List JSValue)
    (hb : req.body = some rpcReq)
    (hl : lookupAction actions rpcReq.method = none)
    (hl2 : lookupAction actions method = none)
    (hbf : opts.beforeFetch = fun c => Except.ok c)
    (hoe : opts.onError = id) :
    mockFetch actions u req = Except.ok
      { ok := true
        status := 200
        statusText := ""
        jsonBody := Except.ok
          { jsonrpc := "2.0"
            result := none
            error := some { code := -32601, message := some "method not found",
                            data := JSValue.undefined }
            id := rpcReq.id } }
    ∧ (requestRun opts (mockFetch actions) method args).outcome
      = CallOutcome.rejected
          (Thrown.rpc (mkRPCError (-32601) (some "method not found") JSValue.undefined)) := by
  constructor
  · simp [mockFetch, hb, hl]
    rfl
  · simp [requestRun, hbf, initialContext, mockFetch, mkRequestBody, hl2, hoe]
    rfl

/-- C6 witness: the default client calling `"nope"` against a mock with
no registered handlers. -/
theorem mock_unregistered_method_witness :
    mockFetch [] "http://localhost/"
        { body := some { jsonrpc := "2.0", method := "nope", params := none,
                         id := RPCId.num 7 } }
      = Except.ok
          { ok := true
            status := 200
            statusText := ""
            jsonBody := Except.ok
              { jsonrpc := "2.0"
                result := none
                error := some { code := -32601, message := some "method not found",
                                data := JSValue.undefined }
                id := RPCId.num 7 } }
    ∧ (requestRun plainOptions (mockFetch []) "nope" []).outcome
      = CallOutcome.rejected
          (Thrown.rpc (mkRPCError (-32601) (some "method not found") JSValue.undefined)) :=
  mock_unregistered_method [] "http://localhost/"
    { body := some { jsonrpc := "2.0", method := "nope", params := none,
                     id := RPCId.num 7 } }
    { jsonrpc := "2.0", method := "nope", params := none, id := RPCId.num 7 }
    plainOptions "nope" [] rfl rfl rfl rfl rfl

/-! ## C7: id stamping in the mock -/

/-- C7: when a registered handler returns an `RPCResponse`, the mock
stamps the decoded request's `id` onto that response exactly when the
`id` is truthy, overwriting whatever the handler set; a falsy `id` —
`0`, the empty string, or `null` — leaves the handler's response
unchanged. -/
theorem mock_id_stamping (actions : List (String × MockRPCAction))
    (u : String) (req : RequestInit) (rpcReq : RPCRequest)
    (action : MockRPCAction) (resp : RPCResponse)
    (hb : req.body = some rpcReq)
    (hl : lookupAction actions rpcReq.method = some action)
    (ha : action rpcReq req = MockResult.rpc resp) :
    (truthyId rpcReq.id = true →
       mockFetch actions u req = Except.ok
         { ok := true, status := 200, statusText := "OK",
           jsonBody := Except.ok { resp with id := rpcReq.id } })
    ∧ (truthyId rpcReq.id = false →
       mockFetch actions u req = Except.ok
         { ok := true, status := 200, statusText := "OK",
           jsonBody := Except.ok resp })
    ∧ truthyId (RPCId.num 0) = false
    ∧ truthyId (RPCId.str "") = false
    ∧ truthyId RPCId.null = false := by
  refine ⟨?_, ?_, rfl, rfl, rfl⟩
  · intro h
    simp [mockFetch, hb, hl, ha, h]
  · intro h
    simp [mockFetch, hb, hl, ha, h]

/-- C7 witness: against the same handler, a request with truthy id `7`
gets its id stamped over the handler's `null`, while a request with the
falsy id `0` leaves the handler's `null` id unchanged. -/
theorem mock_id_stamping_witness :
    mockFetch [("m", constantFiveAction)] "http://localhost/"
        { body := some { jsonrpc := "2.0", method := "m", params := none,
                         id := RPCId.num 7 } }
      = Except.ok
          { ok := true, status := 200, statusText := "OK",
            jsonBody := Except.ok
              { jsonrpc := "2.0", result := some (JSValue.num 5), error := none,
                id := RPCId.num 7 } }
    ∧ mockFetch [("m", constantFiveAction)] "http://localhost/"
        { body := some { jsonrpc := "2.0", method := "m", params := none,
                         id := RPCId.num 0 } }
      = Except.ok
          { ok := true, status := 200, statusText := "OK",
            jsonBody := Except.ok
              { jsonrpc := "2.0", result := some (JSValue.num 5), error := none,
                id := RPCId.null } } :=
  ⟨(mock_id_stamping [("m", constantFiveAction)] "http://localhost/"
      { body := some { jsonrpc := "2.0", method := "m", params := none,
                       id := RPCId.num 7 } }
      { jsonrpc := "2.0", method := "m", params := none, id := RPCId.num 7 }
      constantFiveAction (createMockRPCResponse (JSValue.num 5))
      rfl rfl rfl).1 rfl,
   (mock_id_stamping [("m", constantFiveAction)] "http://localhost/"
      { body := some { jsonrpc := "2.0", method := "m", params := none,
                       id := RPCId.num 0 } }
      { jsonrpc := "2.0", method := "m", params := none, id := RPCId.num 0 }
      constantFiveAction (createMockRPCResponse (JSValue.num 5))
      rfl rfl rfl).2.1 rfl⟩

/-! ## C8: round trip through the mock -/

/-- C8: the default client calling `"echo"` with the single argument
`{x: 1}` through a mock whose `"echo"` handler returns
`createMockRPCResponse({x: 1})` resolves, and the resolved context's
`data` is exactly the `{x: 1}` payload. -/
theorem echo_round_trip :
    ((requestRun plainOptions (mockFetch [("echo", echoAction)]) "echo"
        [echoObject]).outcome).resolvedData = some echoObject :=
  rfl

end SimpleJsonRpc
